import Mathlib

/-!
Verification of the request-routing and incremental-response aggregation
core of the AI Programming Tutor (src/ai_programming_tutor.py).

The embedding models each Python generator as a pure function from its
inputs plus the observable behaviour of the backend stream (the list of
chunks delivered before the stream either ends normally or raises) to the
list of yielded values.  Each `yield new_history, "", ""` becomes an
`Emission`.  The request value each adapter passes to its backend client
is returned alongside the emissions, so that "the backend was invoked
with request R" is observable.  The Python statement `history += [...]`
in `chat_router` mutates the caller's list in place; the router model
therefore also returns the state of the caller's `history` list after
the call (`historyAfter`).
-/

namespace AITutor

/-- One chat message: a dict `{"role": r, "content": c}` in the source. -/
structure Msg where
  role : String
  content : String
deriving DecidableEq, Repr

/-- One `yield new_history, "", ""` of a handler generator: the chatbot
value and the two input-box values of the 3-tuple. -/
structure Emission where
  chatbot : List Msg
  codeOut : String
  questionOut : String
deriving DecidableEq, Repr

/-- `GPT_MODEL = "gpt-4o-mini"` (line 26). -/
def GPT_MODEL : String := "gpt-4o-mini"

/-- `CLAUDE_MODEL = "claude-3-haiku-20240307"` (line 27). -/
def CLAUDE_MODEL : String := "claude-3-haiku-20240307"

/-- `LLAMA_MODEL = "llama3.2"` (line 28). -/
def LLAMA_MODEL : String := "llama3.2"

/-- The static system prompt (lines 52-105), verbatim. -/
def SYSTEM_PROMPT : String :=
  "\nYou are a friendly, expert, and highly structured programming tutor.\n\n"
  ++ "Your mission is to teach code in a way that's:\n"
  ++ "- Clear, motivating, and truly understandable\n"
  ++ "- Focused on both what the code does and why it was written that way\n"
  ++ "- Adapted to the user's level, with no assumptions or unexplained jargon\n\n"
  ++ "## EXPLANATION FORMAT\n\n"
  ++ "For each code snippet, use the following layout:\n\n"
  ++ "**Code:** `for i in range(5):`\n\n"
  ++ "**Explanation:**  \n"
  ++ "A for loop that repeats 5 times, with i going from 0 to 4.  \n"
  ++ "This is useful for running code multiple times in a row.\n\n"
  ++ "If the code spans multiple lines, break it into small blocks, and explain block by block.\n\n"
  ++ "## VISUAL FORMAT\n\n"
  ++ "Use Markdown formatting to create a clean, easy-to-follow explanation:\n"
  ++ "- Inline code: use backticks `like_this()`\n"
  ++ "- **Bold**: for key terms and transitions\n"
  ++ "- Bullets: for breaking down multi-part logic\n"
  ++ "- Line breaks: between concepts to improve visual flow\n"
  ++ "- Headings: if needed, for sectioned explanations\n\n"
  ++ "## TEACHING STRATEGY\n\n"
  ++ "- Be concise, but don't skip steps\n"
  ++ "- Use real-world analogies where helpful\n"
  ++ "- Use simple, progressive language\n"
  ++ "- If code is long or complex, ask if they want line-by-line or section-by-section explanation\n"
  ++ "- If a concept is advanced or new, explain it from first principles\n"
  ++ "- Add clarifying notes when code may look strange or tricky\n"
  ++ "- When appropriate, suggest small modifications or exercises\n\n"
  ++ "## BEST PRACTICES\n\n"
  ++ "Do:\n"
  ++ "- Always explain both what the code does and why it's structured that way\n"
  ++ "- Be supportive and encouraging\n"
  ++ "- Mention potential pitfalls or common mistakes\n"
  ++ "- Adapt explanations to the user's questions and level\n\n"
  ++ "Do NOT:\n"
  ++ "- Use unexplained jargon or overly technical language\n"
  ++ "- Assume the user \"already knows\"\n"
  ++ "- Skip past logic, even if it seems \"obvious\"\n\n"
  ++ "You're here to help the user think like a programmer.\n"

/-- The whitespace characters Python `str.strip()` removes (ASCII part). -/
def pyWhitespace (c : Char) : Bool :=
  c = ' ' || c = '\t' || c = '\n' || c = '\r' || c = '\x0b' || c = '\x0c'

/-- Python `str.strip()`: remove leading and trailing whitespace. -/
def pyStrip (s : String) : String :=
  ⟨((s.data.dropWhile pyWhitespace).reverse.dropWhile pyWhitespace).reverse⟩

/-- The `user_content` composition of `chat_gpt_answer_stream`
(lines 128-132): empty, plus the fenced code block when `code` is truthy
(non-empty), plus the stripped question when `question` is truthy. -/
def gptUserContent (code question : String) : String :=
  let u := ""
  let u := if code ≠ "" then
    u ++ ("Please explain this code:\n\n```python\n" ++ pyStrip code ++ "\n```\n\n")
    else u
  let u := if question ≠ "" then u ++ pyStrip question else u
  u

/-- The `user_content` composition of `chat_claude_answer_stream`
(lines 180-184), textually identical to the GPT one. -/
def claudeUserContent (code question : String) : String :=
  let u := ""
  let u := if code ≠ "" then
    u ++ ("Please explain this code:\n\n```python\n" ++ pyStrip code ++ "\n```\n\n")
    else u
  let u := if question ≠ "" then u ++ pyStrip question else u
  u

/-- The `user_content` composition of `chat_llama_answer_stream`
(lines 233-237), textually identical to the GPT one. -/
def llamaUserContent (code question : String) : String :=
  let u := ""
  let u := if code ≠ "" then
    u ++ ("Please explain this code:\n\n```python\n" ++ pyStrip code ++ "\n```\n\n")
    else u
  let u := if question ≠ "" then u ++ pyStrip question else u
  u

/-- A chunk of the OpenAI stream, reduced to its one observed field
`chunk.choices[0].delta.content` (may be absent/None). -/
abbrev GptChunk := Option String

/-- A chunk of the Anthropic stream: its `type` tag, and `delta.text`
when the delta has a `text` attribute (`hasattr(chunk.delta, 'text')`). -/
structure ClaudeChunk where
  ctype : String
  deltaText : Option String
deriving DecidableEq, Repr

/-- A chunk of the ollama stream: `chunk["message"]["content"]` when both
keys are present. -/
structure LlamaChunk where
  messageContent : Option String
deriving DecidableEq, Repr

/-- What a backend stream observably does for one request: the chunks it
delivers, then either normal completion (`failure = none`) or an exception
whose `str(e)` is the given message.  An exception raised by the call
before any chunk is the case `chunks = []`. -/
structure StreamBehavior (χ : Type) where
  chunks : List χ
  failure : Option String
deriving DecidableEq, Repr

/-- Guard of the GPT loop, `if chunk.choices[0].delta.content:`
(line 147): Python truthiness, so None and the empty string are skipped. -/
def gptExtract (c : GptChunk) : Option String :=
  match c with
  | some s => if s = "" then none else some s
  | none => none

/-- Guard of the Claude loop (line 199),
`if chunk.type == "content_block_delta" and hasattr(chunk.delta, 'text')`:
an empty `text` passes the guard. -/
def claudeExtract (c : ClaudeChunk) : Option String :=
  if c.ctype = "content_block_delta" then c.deltaText else none

/-- Guard of the Llama loop (line 251),
`if "message" in chunk and "content" in chunk["message"]`:
an empty content passes the guard. -/
def llamaExtract (c : LlamaChunk) : Option String := c.messageContent

/-- The shared body of the three streaming loops (lines 146-153, 198-205,
250-257): for each chunk passing the adapter's guard, extend the running
`response_text` accumulator and yield
`history + [user turn, assistant turn]` together with the two cleared
input boxes. -/
def streamLoop {χ : Type} (history : List Msg) (u : String)
    (extract : χ → Option String) : String → List χ → List Emission
  | _, [] => []
  | acc, c :: cs =>
    match extract c with
    | some s =>
      ⟨history ++ [⟨"user", u⟩, ⟨"assistant", acc ++ s⟩], "", ""⟩ ::
        streamLoop history u extract (acc ++ s) cs
    | none => streamLoop history u extract acc cs

/-- The request `openai_client.chat.completions.create(...)` is called
with (lines 139-144). -/
structure GptRequest where
  model : String
  messages : List Msg
  temperature : ℚ
  stream : Bool
deriving DecidableEq, Repr

/-- The request `anthropic_client.messages.stream(...)` is called with
(lines 191-196). -/
structure ClaudeRequest where
  model : String
  max_tokens : Nat
  temperature : ℚ
  system : String
  messages : List Msg
deriving DecidableEq, Repr

/-- The request `ollama.chat(...)` is called with (lines 244-248). -/
structure LlamaRequest where
  model : String
  messages : List Msg
  stream : Bool
deriving DecidableEq, Repr

/-- `chat_gpt_answer_stream` (lines 111-161): returns the emitted values
and the request sent to the backend.  The message list is the system
prompt, then the copied history, then the user message when
`user_content` is truthy.  On an exception anywhere in the `try` block
the single error emission carries `"GPT Error: " + str(e)` as the whole
assistant body. -/
def chat_gpt_answer_stream (code question : String) (history : List Msg)
    (b : StreamBehavior GptChunk) : List Emission × GptRequest :=
  let user_content := gptUserContent code question
  let messages := ⟨"system", SYSTEM_PROMPT⟩ ::
    (history ++ (if user_content ≠ "" then [⟨"user", user_content⟩] else []))
  let req : GptRequest := ⟨GPT_MODEL, messages, (0.4 : ℚ), true⟩
  let ok := streamLoop history user_content gptExtract "" b.chunks
  let es := match b.failure with
    | none => ok
    | some e => ok ++
        [⟨history ++ [⟨"user", user_content⟩, ⟨"assistant", "GPT Error: " ++ e⟩], "", ""⟩]
  (es, req)

/-- `chat_claude_answer_stream` (lines 164-213): the message list holds
only the copied history and the optional user message; the system prompt
goes in the dedicated `system` field, `max_tokens=1024`,
`temperature=0.4`.  The error emission carries `"Claude Error: " + str(e)`. -/
def chat_claude_answer_stream (code question : String) (history : List Msg)
    (b : StreamBehavior ClaudeChunk) : List Emission × ClaudeRequest :=
  let user_content := claudeUserContent code question
  let messages :=
    history ++ (if user_content ≠ "" then [⟨"user", user_content⟩] else [])
  let req : ClaudeRequest := ⟨CLAUDE_MODEL, 1024, (0.4 : ℚ), SYSTEM_PROMPT, messages⟩
  let ok := streamLoop history user_content claudeExtract "" b.chunks
  let es := match b.failure with
    | none => ok
    | some e => ok ++
        [⟨history ++ [⟨"user", user_content⟩, ⟨"assistant", "Claude Error: " ++ e⟩], "", ""⟩]
  (es, req)

/-- `chat_llama_answer_stream` (lines 216-265): same shape as GPT with
the system prompt as a leading system-role message; no temperature.  The
error emission carries `"Llama Error: " + str(e)`. -/
def chat_llama_answer_stream (code question : String) (history : List Msg)
    (b : StreamBehavior LlamaChunk) : List Emission × LlamaRequest :=
  let user_content := llamaUserContent code question
  let messages := ⟨"system", SYSTEM_PROMPT⟩ ::
    (history ++ (if user_content ≠ "" then [⟨"user", user_content⟩] else []))
  let req : LlamaRequest := ⟨LLAMA_MODEL, messages, true⟩
  let ok := streamLoop history user_content llamaExtract "" b.chunks
  let es := match b.failure with
    | none => ok
    | some e => ok ++
        [⟨history ++ [⟨"user", user_content⟩, ⟨"assistant", "Llama Error: " ++ e⟩], "", ""⟩]
  (es, req)

/-- The request the router handed to a backend client, tagged by backend;
`none` in the router result means no backend call was made. -/
inductive BackendRequest where
  | gpt : GptRequest → BackendRequest
  | claude : ClaudeRequest → BackendRequest
  | llama : LlamaRequest → BackendRequest
deriving DecidableEq, Repr

/-- Everything observable about one `chat_router` call: the yielded
values, the state of the caller's `history` list object after the call
(`history += [...]` on line 288 extends that list in place; the adapter
branches only ever build new lists with `history + [...]`), and the
backend request if one was issued. -/
structure RouterResult where
  emissions : List Emission
  historyAfter : List Msg
  request : Option BackendRequest
deriving DecidableEq, Repr

/-- `chat_router` (lines 268-289): exact string match on `model_name`
against "GPT", "Claude", "Llama"; any other name appends the synthetic
assistant turn `"Unknown model selected."` to the caller's list in place
and yields it once. -/
def chat_router (code question : String) (history : List Msg) (model_name : String)
    (gptB : StreamBehavior GptChunk) (claudeB : StreamBehavior ClaudeChunk)
    (llamaB : StreamBehavior LlamaChunk) : RouterResult :=
  if model_name = "GPT" then
    let r := chat_gpt_answer_stream code question history gptB
    ⟨r.1, history, some (.gpt r.2)⟩
  else if model_name = "Claude" then
    let r := chat_claude_answer_stream code question history claudeB
    ⟨r.1, history, some (.claude r.2)⟩
  else if model_name = "Llama" then
    let r := chat_llama_answer_stream code question history llamaB
    ⟨r.1, history, some (.llama r.2)⟩
  else
    let history := history ++ [⟨"assistant", "Unknown model selected."⟩]
    ⟨[⟨history, "", ""⟩], history, none⟩

/-- Concatenation of a list of text fragments, in order. -/
def concatFrags : List String → String
  | [] => ""
  | f :: fs => f ++ concatFrags fs

/-- When every fragment of `frags` passes the loop guard with itself as
the extracted text, the loop emits one snapshot per fragment, and the
snapshot after fragment `k` carries the accumulator extended by the
concatenation of fragments `1..k+1`. -/
lemma streamLoop_maps {χ : Type} (history : List Msg) (u : String)
    (ex : χ → Option String) (m : String → χ) (frags : List String) :
    ∀ acc : String, (∀ f ∈ frags, ex (m f) = some f) →
    streamLoop history u ex acc (frags.map m) =
      (List.range frags.length).map (fun k =>
        ⟨history ++ [⟨"user", u⟩, ⟨"assistant", acc ++ concatFrags (frags.take (k+1))⟩],
          "", ""⟩) := by
  induction frags with
  | nil => intro acc _; rfl
  | cons f fs ih =>
    intro acc hex
    have hf : ex (m f) = some f := hex f (List.mem_cons_self f fs)
    have hfs : ∀ g ∈ fs, ex (m g) = some g := fun g hg => hex g (List.mem_cons_of_mem f hg)
    simp only [List.map_cons, streamLoop, hf]
    rw [ih (acc ++ f) hfs, List.length_cons, List.range_succ_eq_map,
      List.map_cons, List.map_map]
    congr 1
    · simp [concatFrags, String.append_empty]
    · congr 1
      funext k
      simp [Function.comp, concatFrags, String.append_assoc]

/-- The loop emits exactly one snapshot per chunk passing the guard. -/
lemma streamLoop_length {χ : Type} (history : List Msg) (u : String)
    (ex : χ → Option String) : ∀ (acc : String) (cs : List χ),
    (streamLoop history u ex acc cs).length =
      (cs.filter (fun c => (ex c).isSome)).length := by
  intro acc cs
  induction cs generalizing acc with
  | nil => rfl
  | cons c cs ih =>
    cases hc : ex c <;> simp [streamLoop, hc, List.filter_cons, ih]

/-- Every value the loop yields clears both input boxes. -/
lemma streamLoop_outputs {χ : Type} (history : List Msg) (u : String)
    (ex : χ → Option String) : ∀ (acc : String) (cs : List χ),
    ∀ em ∈ streamLoop history u ex acc cs, em.codeOut = "" ∧ em.questionOut = "" := by
  intro acc cs
  induction cs generalizing acc with
  | nil => intro em hm; cases hm
  | cons c cs ih =>
    intro em hm
    cases hc : ex c with
    | none =>
      simp only [streamLoop, hc] at hm
      exact ih _ em hm
    | some s =>
      simp only [streamLoop, hc] at hm
      rcases List.mem_cons.mp hm with h | h
      · subst h; exact ⟨rfl, rfl⟩
      · exact ih _ em h

/-- A list with one element appended at the end is nonempty and has that
element as its last. -/
lemma last_of_concat (l : List Emission) (em : Emission) :
    l ++ [em] ≠ [] ∧ (l ++ [em]).getLast? = some em :=
  ⟨by simp, List.getLast?_concat l⟩

/-- Every GPT-handler emission clears both input boxes. -/
lemma gpt_emissions_outputs (code question : String) (history : List Msg)
    (b : StreamBehavior GptChunk) :
    ∀ em ∈ (chat_gpt_answer_stream code question history b).1,
      em.codeOut = "" ∧ em.questionOut = "" := by
  obtain ⟨cs, fl⟩ := b
  cases fl with
  | none =>
    intro em hm
    exact streamLoop_outputs _ _ _ _ _ em hm
  | some e =>
    intro em hm
    rcases List.mem_append.mp hm with h | h
    · exact streamLoop_outputs _ _ _ _ _ em h
    · rcases List.mem_singleton.mp h with rfl; exact ⟨rfl, rfl⟩

/-- Every Claude-handler emission clears both input boxes. -/
lemma claude_emissions_outputs (code question : String) (history : List Msg)
    (b : StreamBehavior ClaudeChunk) :
    ∀ em ∈ (chat_claude_answer_stream code question history b).1,
      em.codeOut = "" ∧ em.questionOut = "" := by
  obtain ⟨cs, fl⟩ := b
  cases fl with
  | none =>
    intro em hm
    exact streamLoop_outputs _ _ _ _ _ em hm
  | some e =>
    intro em hm
    rcases List.mem_append.mp hm with h | h
    · exact streamLoop_outputs _ _ _ _ _ em h
    · rcases List.mem_singleton.mp h with rfl; exact ⟨rfl, rfl⟩

/-- Every Llama-handler emission clears both input boxes. -/
lemma llama_emissions_outputs (code question : String) (history : List Msg)
    (b : StreamBehavior LlamaChunk) :
    ∀ em ∈ (chat_llama_answer_stream code question history b).1,
      em.codeOut = "" ∧ em.questionOut = "" := by
  obtain ⟨cs, fl⟩ := b
  cases fl with
  | none =>
    intro em hm
    exact streamLoop_outputs _ _ _ _ _ em hm
  | some e =>
    intro em hm
    rcases List.mem_append.mp hm with h | h
    · exact streamLoop_outputs _ _ _ _ _ em h
    · rcases List.mem_singleton.mp h with rfl; exact ⟨rfl, rfl⟩

/-- C1: for every history, every pair of inputs (hence every composed user
content), and every fragment sequence consumed without error, the snapshot
emitted after fragment k is the input history plus exactly one new user
Turn and exactly one new assistant Turn whose body is the concatenation of
fragments 1..k; no emission adds any other Turn. -/
theorem C1_snapshot_invariant (code question : String) (history : List Msg)
    (frags : List String) (hne : ∀ f ∈ frags, f ≠ "") :
    (chat_gpt_answer_stream code question history ⟨frags.map some, none⟩).1 =
      (List.range frags.length).map (fun k =>
        ⟨history ++ [⟨"user", gptUserContent code question⟩,
          ⟨"assistant", concatFrags (frags.take (k+1))⟩], "", ""⟩) := by
  show streamLoop history (gptUserContent code question) gptExtract "" (frags.map some) = _
  rw [streamLoop_maps history (gptUserContent code question) gptExtract some frags ""
    (fun f hf => by simp [gptExtract, hne f hf])]
  simp [String.empty_append]

/-- Witness for C1 at fragments ["a", "b"]. -/
theorem C1_snapshot_invariant_witness :
    (chat_gpt_answer_stream "x" "" [] ⟨(["a", "b"] : List String).map some, none⟩).1 =
      (List.range (["a", "b"] : List String).length).map (fun k =>
        ⟨([] : List Msg) ++ [⟨"user", gptUserContent "x" ""⟩,
          ⟨"assistant", concatFrags ((["a", "b"] : List String).take (k+1))⟩], "", ""⟩) :=
  C1_snapshot_invariant "x" "" [] ["a", "b"] (by decide)

/-- C2 counterexample: with both inputs empty and the GPT backend
selected, the backend is invoked (a request is issued) and the emitted
conversation is the input history extended by an empty-bodied user Turn
and an assistant Turn — not the unmodified conversation. -/
theorem C2_cex :
    (chat_router "" "" [] "GPT" ⟨[some "Hi"], none⟩ ⟨[], none⟩ ⟨[], none⟩).emissions =
      [⟨[⟨"user", ""⟩, ⟨"assistant", "Hi"⟩], "", ""⟩] ∧
    (chat_router "" "" [] "GPT" ⟨[some "Hi"], none⟩ ⟨[], none⟩ ⟨[], none⟩).request.isSome
      = true := ⟨rfl, rfl⟩

/-- C2 amended: when both inputs are empty, no user message is put into
the backend request (the request holds only the system prompt and the
prior history), but the backend is still invoked, and each emission still
appends a user Turn (with empty body) and an assistant Turn. -/
theorem C2_empty_inputs (history : List Msg) (frags : List String)
    (hne : ∀ f ∈ frags, f ≠ "")
    (gb : StreamBehavior GptChunk) (cb : StreamBehavior ClaudeChunk)
    (lb : StreamBehavior LlamaChunk) :
    (chat_router "" "" history "GPT" ⟨frags.map some, none⟩ cb lb).request =
      some (.gpt ⟨GPT_MODEL, ⟨"system", SYSTEM_PROMPT⟩ :: history, (0.4 : ℚ), true⟩) ∧
    (chat_router "" "" history "GPT" ⟨frags.map some, none⟩ cb lb).emissions =
      (List.range frags.length).map (fun k =>
        ⟨history ++ [⟨"user", ""⟩, ⟨"assistant", concatFrags (frags.take (k+1))⟩],
          "", ""⟩) ∧
    (chat_router "" "" history "Claude" gb cb lb).request =
      some (.claude ⟨CLAUDE_MODEL, 1024, (0.4 : ℚ), SYSTEM_PROMPT, history⟩) ∧
    (chat_router "" "" history "Llama" gb cb lb).request =
      some (.llama ⟨LLAMA_MODEL, ⟨"system", SYSTEM_PROMPT⟩ :: history, true⟩) := by
  refine ⟨?_, ?_, ?_, ?_⟩
  · simp [chat_router, chat_gpt_answer_stream, gptUserContent]
  · show streamLoop history (gptUserContent "" "") gptExtract "" (frags.map some) = _
    rw [streamLoop_maps history (gptUserContent "" "") gptExtract some frags ""
      (fun f hf => by simp [gptExtract, hne f hf])]
    simp [gptUserContent, String.empty_append]
  · simp [chat_router, chat_claude_answer_stream, claudeUserContent]
  · simp [chat_router, chat_llama_answer_stream, llamaUserContent]

/-- Witness for C2 amended at history [] and one fragment. -/
theorem C2_empty_inputs_witness :
    (chat_router "" "" [] "GPT" ⟨(["Hi"] : List String).map some, none⟩
        ⟨[], none⟩ ⟨[], none⟩).request =
      some (.gpt ⟨GPT_MODEL, ⟨"system", SYSTEM_PROMPT⟩ :: ([] : List Msg),
        (0.4 : ℚ), true⟩) ∧
    (chat_router "" "" [] "GPT" ⟨(["Hi"] : List String).map some, none⟩
        ⟨[], none⟩ ⟨[], none⟩).emissions =
      (List.range (["Hi"] : List String).length).map (fun k =>
        ⟨([] : List Msg) ++ [⟨"user", ""⟩,
          ⟨"assistant", concatFrags ((["Hi"] : List String).take (k+1))⟩], "", ""⟩) ∧
    (chat_router "" "" [] "Claude" ⟨[], none⟩ ⟨[], none⟩ ⟨[], none⟩).request =
      some (.claude ⟨CLAUDE_MODEL, 1024, (0.4 : ℚ), SYSTEM_PROMPT, ([] : List Msg)⟩) ∧
    (chat_router "" "" [] "Llama" ⟨[], none⟩ ⟨[], none⟩ ⟨[], none⟩).request =
      some (.llama ⟨LLAMA_MODEL, ⟨"system", SYSTEM_PROMPT⟩ :: ([] : List Msg), true⟩) :=
  C2_empty_inputs [] ["Hi"] (by decide) ⟨[], none⟩ ⟨[], none⟩ ⟨[], none⟩

/-- C3 counterexample: after one delivered fragment "ab" and a failure
"boom", the final emitted assistant body is the bare error label
"GPT Error: boom", not the concatenation of the delivered fragments
followed by the label. -/
theorem C3_cex :
    (chat_gpt_answer_stream "x" "" [] ⟨[some "ab"], some "boom"⟩).1.getLast? =
      some ⟨[⟨"user", gptUserContent "x" ""⟩, ⟨"assistant", "GPT Error: boom"⟩],
        "", ""⟩ ∧
    "GPT Error: boom" ≠ concatFrags ["ab"] ++ "GPT Error: boom" := ⟨rfl, by decide⟩

/-- C3 amended: when the stream fails after N delivered fragments, the
emissions are exactly the N unaltered success snapshots followed by one
error emission whose assistant body is the backend-name-prefixed error
label alone — the accumulated fragment text is dropped from the error
emission (it survives only in the snapshots already emitted). Shown for
the GPT and Claude adapters. -/
theorem C3_error_after_fragments (code question : String) (history : List Msg)
    (frags : List String) (e : String) (hne : ∀ f ∈ frags, f ≠ "") :
    (chat_gpt_answer_stream code question history ⟨frags.map some, some e⟩).1 =
      (List.range frags.length).map (fun k =>
        ⟨history ++ [⟨"user", gptUserContent code question⟩,
          ⟨"assistant", concatFrags (frags.take (k+1))⟩], "", ""⟩) ++
      [⟨history ++ [⟨"user", gptUserContent code question⟩,
        ⟨"assistant", "GPT Error: " ++ e⟩], "", ""⟩] ∧
    (chat_claude_answer_stream code question history
        ⟨frags.map (fun s => ⟨"content_block_delta", some s⟩), some e⟩).1 =
      (List.range frags.length).map (fun k =>
        ⟨history ++ [⟨"user", claudeUserContent code question⟩,
          ⟨"assistant", concatFrags (frags.take (k+1))⟩], "", ""⟩) ++
      [⟨history ++ [⟨"user", claudeUserContent code question⟩,
        ⟨"assistant", "Claude Error: " ++ e⟩], "", ""⟩] := by
  constructor
  · show streamLoop history (gptUserContent code question) gptExtract ""
      (frags.map some) ++ _ = _
    rw [streamLoop_maps history (gptUserContent code question) gptExtract some frags ""
      (fun f hf => by simp [gptExtract, hne f hf])]
    simp [String.empty_append]
  · show streamLoop history (claudeUserContent code question) claudeExtract ""
      (frags.map (fun s => ⟨"content_block_delta", some s⟩)) ++ _ = _
    rw [streamLoop_maps history (claudeUserContent code question) claudeExtract
      (fun s => ⟨"content_block_delta", some s⟩) frags ""
      (fun f _ => by simp [claudeExtract])]
    simp [String.empty_append]

/-- Witness for C3 amended at one fragment and failure "boom". -/
theorem C3_error_after_fragments_witness :
    (chat_gpt_answer_stream "x" "" [] ⟨(["ab"] : List String).map some, some "boom"⟩).1 =
      (List.range (["ab"] : List String).length).map (fun k =>
        ⟨([] : List Msg) ++ [⟨"user", gptUserContent "x" ""⟩,
          ⟨"assistant", concatFrags ((["ab"] : List String).take (k+1))⟩], "", ""⟩) ++
      [⟨([] : List Msg) ++ [⟨"user", gptUserContent "x" ""⟩,
        ⟨"assistant", "GPT Error: " ++ "boom"⟩], "", ""⟩] ∧
    (chat_claude_answer_stream "x" "" []
        ⟨(["ab"] : List String).map (fun s => ⟨"content_block_delta", some s⟩),
          some "boom"⟩).1 =
      (List.range (["ab"] : List String).length).map (fun k =>
        ⟨([] : List Msg) ++ [⟨"user", claudeUserContent "x" ""⟩,
          ⟨"assistant", concatFrags ((["ab"] : List String).take (k+1))⟩], "", ""⟩) ++
      [⟨([] : List Msg) ++ [⟨"user", claudeUserContent "x" ""⟩,
        ⟨"assistant", "Claude Error: " ++ "boom"⟩], "", ""⟩] :=
  C3_error_after_fragments "x" "" [] ["ab"] "boom" (by decide)

/-- C4: routing with a backend name outside {GPT, Claude, Llama} emits
exactly one snapshot, equal to the input history plus one assistant Turn
with body "Unknown model selected.", appends no user Turn, and issues no
backend request. -/
theorem C4_unknown_backend (code question : String) (history : List Msg)
    (name : String) (gb : StreamBehavior GptChunk) (cb : StreamBehavior ClaudeChunk)
    (lb : StreamBehavior LlamaChunk)
    (h1 : name ≠ "GPT") (h2 : name ≠ "Claude") (h3 : name ≠ "Llama") :
    (chat_router code question history name gb cb lb).emissions =
      [⟨history ++ [⟨"assistant", "Unknown model selected."⟩], "", ""⟩] ∧
    (chat_router code question history name gb cb lb).request = none := by
  constructor <;> simp [chat_router, h1, h2, h3]

/-- Witness for C4 at the unrecognized name "Mistral". -/
theorem C4_unknown_backend_witness :
    (chat_router "c" "q" [] "Mistral" ⟨[], none⟩ ⟨[], none⟩ ⟨[], none⟩).emissions =
      [⟨([] : List Msg) ++ [⟨"assistant", "Unknown model selected."⟩], "", ""⟩] ∧
    (chat_router "c" "q" [] "Mistral" ⟨[], none⟩ ⟨[], none⟩ ⟨[], none⟩).request = none :=
  C4_unknown_backend "c" "q" [] "Mistral" ⟨[], none⟩ ⟨[], none⟩ ⟨[], none⟩
    (by decide) (by decide) (by decide)

/-- C5: whenever the backend call fails — before any fragment or after
arbitrarily many chunks — each of the three handlers catches the failure
and ends its (nonempty) emission sequence with a snapshot whose final
Turn is a displayable assistant Turn carrying the backend-prefixed error
label; the handler itself never propagates the failure. -/
theorem C5_failure_becomes_turn (code question : String) (history : List Msg)
    (e : String) (gcs : List GptChunk) (ccs : List ClaudeChunk)
    (lcs : List LlamaChunk) :
    ((chat_gpt_answer_stream code question history ⟨gcs, some e⟩).1 ≠ [] ∧
      (chat_gpt_answer_stream code question history ⟨gcs, some e⟩).1.getLast? =
        some ⟨history ++ [⟨"user", gptUserContent code question⟩,
          ⟨"assistant", "GPT Error: " ++ e⟩], "", ""⟩) ∧
    ((chat_claude_answer_stream code question history ⟨ccs, some e⟩).1 ≠ [] ∧
      (chat_claude_answer_stream code question history ⟨ccs, some e⟩).1.getLast? =
        some ⟨history ++ [⟨"user", claudeUserContent code question⟩,
          ⟨"assistant", "Claude Error: " ++ e⟩], "", ""⟩) ∧
    ((chat_llama_answer_stream code question history ⟨lcs, some e⟩).1 ≠ [] ∧
      (chat_llama_answer_stream code question history ⟨lcs, some e⟩).1.getLast? =
        some ⟨history ++ [⟨"user", llamaUserContent code question⟩,
          ⟨"assistant", "Llama Error: " ++ e⟩], "", ""⟩) :=
  ⟨last_of_concat _ _, last_of_concat _ _, last_of_concat _ _⟩

/-- C6: the composed user content is the fenced code block (on non-empty
code) followed by the stripped question (on non-empty question); the three
adapters use the same composition function; and the spec's Backend-A
scenario: code "print('hi')" with no question yields the fenced user body,
and fragments ["Sure", ", this prints hi"] end with assistant body
"Sure, this prints hi". -/
theorem C6_user_content_composition :
    (∀ code question : String,
      gptUserContent code question =
        (if code ≠ "" then
          "Please explain this code:\n\n```python\n" ++ pyStrip code ++ "\n```\n\n"
         else "") ++ (if question ≠ "" then pyStrip question else "")) ∧
    gptUserContent = claudeUserContent ∧ gptUserContent = llamaUserContent ∧
    gptUserContent "print('hi')" "" =
      "Please explain this code:\n\n```python\nprint('hi')\n```\n\n" ∧
    (chat_gpt_answer_stream "print('hi')" "" []
        ⟨[some "Sure", some ", this prints hi"], none⟩).1.getLast? =
      some ⟨[⟨"user", gptUserContent "print('hi')" ""⟩,
        ⟨"assistant", "Sure, this prints hi"⟩], "", ""⟩ := by
  refine ⟨?_, rfl, rfl, rfl, rfl⟩
  intro code question
  by_cases hc : code = "" <;> by_cases hq : question = "" <;>
    simp [gptUserContent, hc, hq]

/-- C7 counterexample: routing with an unrecognized backend name mutates
the caller's history list in place (Python list "+=" extends the object):
starting from the empty history, the list after the call holds the
synthetic assistant Turn, so the input history value did not survive the
call unchanged. -/
theorem C7_cex :
    (chat_router "c" "q" [] "Other" ⟨[], none⟩ ⟨[], none⟩ ⟨[], none⟩).historyAfter =
      [⟨"assistant", "Unknown model selected."⟩] ∧
    ([] : List Msg) ≠ [(⟨"assistant", "Unknown model selected."⟩ : Msg)] :=
  ⟨rfl, by decide⟩

/-- C7 amended: requests routed to one of the three known backends leave
the caller's history list untouched (the adapters only build new lists
with Python list "+"); routing with an unrecognized name extends the
caller's history list in place by the synthetic assistant Turn. -/
theorem C7_history_preservation (code question : String) (history : List Msg)
    (name : String) (gb : StreamBehavior GptChunk) (cb : StreamBehavior ClaudeChunk)
    (lb : StreamBehavior LlamaChunk) :
    ((name = "GPT" ∨ name = "Claude" ∨ name = "Llama") →
      (chat_router code question history name gb cb lb).historyAfter = history) ∧
    (name ≠ "GPT" → name ≠ "Claude" → name ≠ "Llama" →
      (chat_router code question history name gb cb lb).historyAfter =
        history ++ [⟨"assistant", "Unknown model selected."⟩]) := by
  constructor
  · rintro (rfl | rfl | rfl) <;> simp [chat_router]
  · intro h1 h2 h3
    simp [chat_router, h1, h2, h3]

/-- Witness for C7 amended: a known backend keeps the one-turn history,
an unrecognized one extends it. -/
theorem C7_history_preservation_witness :
    (chat_router "a" "b" [⟨"user", "u"⟩] "GPT"
        ⟨[], none⟩ ⟨[], none⟩ ⟨[], none⟩).historyAfter = [⟨"user", "u"⟩] ∧
    (chat_router "a" "b" [⟨"user", "u"⟩] "Nope"
        ⟨[], none⟩ ⟨[], none⟩ ⟨[], none⟩).historyAfter =
      [⟨"user", "u"⟩] ++ [⟨"assistant", "Unknown model selected."⟩] :=
  ⟨(C7_history_preservation "a" "b" [⟨"user", "u"⟩] "GPT"
      ⟨[], none⟩ ⟨[], none⟩ ⟨[], none⟩).1 (Or.inl rfl),
   (C7_history_preservation "a" "b" [⟨"user", "u"⟩] "Nope"
      ⟨[], none⟩ ⟨[], none⟩ ⟨[], none⟩).2 (by decide) (by decide) (by decide)⟩

/-- C8: for every history and every pair of inputs, the Claude request
caps max output tokens at 1024, fixes temperature at 0.4, passes the
system prompt in the dedicated top-level field, and its message list is
just the copied history plus the optional user message — in particular,
when the history holds no system-role message, neither does the message
list. -/
theorem C8_claude_request (code question : String) (history : List Msg)
    (b : StreamBehavior ClaudeChunk) :
    (chat_claude_answer_stream code question history b).2.max_tokens = 1024 ∧
    (chat_claude_answer_stream code question history b).2.temperature = (0.4 : ℚ) ∧
    (chat_claude_answer_stream code question history b).2.system = SYSTEM_PROMPT ∧
    (chat_claude_answer_stream code question history b).2.messages =
      history ++ (if claudeUserContent code question ≠ ""
        then [⟨"user", claudeUserContent code question⟩] else []) ∧
    ((∀ m ∈ history, m.role ≠ "system") →
      ∀ m ∈ (chat_claude_answer_stream code question history b).2.messages,
        m.role ≠ "system") := by
  refine ⟨rfl, rfl, rfl, rfl, ?_⟩
  intro hh m hm
  rcases List.mem_append.mp hm with h | h
  · exact hh m h
  · revert h
    split
    · intro h
      rcases List.mem_singleton.mp h with rfl
      show "user" ≠ "system"
      decide
    · intro h
      cases h

/-- Witness for C8: with a one-turn user history, no message in the
Claude request has the system role. -/
theorem C8_claude_request_witness :
    (⟨"user", "hi"⟩ : Msg).role ≠ "system" :=
  (C8_claude_request "c" "q" [⟨"user", "hi"⟩] ⟨[], none⟩).2.2.2.2 (by decide)
    ⟨"user", "hi"⟩ (by decide)

/-- C9 counterexample: a Claude content_block_delta chunk whose text is
the empty string, and a Llama chunk whose message content is the empty
string, each produce an emission — so it is not the case that an empty
text delta produces no emission in all three adapters. -/
theorem C9_cex :
    (chat_claude_answer_stream "x" "" []
        ⟨[⟨"content_block_delta", some ""⟩], none⟩).1 =
      [⟨[⟨"user", claudeUserContent "x" ""⟩, ⟨"assistant", ""⟩], "", ""⟩] ∧
    (chat_llama_answer_stream "x" "" [] ⟨[⟨some ""⟩], none⟩).1 ≠ [] :=
  ⟨rfl, by decide⟩

/-- C9 amended: each adapter emits one snapshot per chunk passing its own
guard; the GPT guard drops absent and empty deltas, while the Claude and
Llama guards accept every structurally well-formed delta, including ones
with empty text (which extend the body by nothing). -/
theorem C9_emission_guards (code question : String) (history : List Msg)
    (gcs : List GptChunk) (ccs : List ClaudeChunk) (lcs : List LlamaChunk) :
    (chat_gpt_answer_stream code question history ⟨gcs, none⟩).1.length =
      (gcs.filter (fun c => (gptExtract c).isSome)).length ∧
    (chat_claude_answer_stream code question history ⟨ccs, none⟩).1.length =
      (ccs.filter (fun c => (claudeExtract c).isSome)).length ∧
    (chat_llama_answer_stream code question history ⟨lcs, none⟩).1.length =
      (lcs.filter (fun c => (llamaExtract c).isSome)).length ∧
    gptExtract (some "") = none ∧ gptExtract none = none ∧
    (∀ s : String, s ≠ "" → gptExtract (some s) = some s) ∧
    claudeExtract ⟨"content_block_delta", some ""⟩ = some "" ∧
    llamaExtract ⟨some ""⟩ = some "" :=
  ⟨streamLoop_length _ _ _ _ _, streamLoop_length _ _ _ _ _,
   streamLoop_length _ _ _ _ _, rfl, rfl,
   fun s hs => by simp [gptExtract, hs], rfl, rfl⟩

/-- Witness for C9 amended: the GPT guard keeps a concrete non-empty
delta unchanged. -/
theorem C9_emission_guards_witness : gptExtract (some "a") = some "a" :=
  (C9_emission_guards "" "" [] [] [] []).2.2.2.2.2.1 "a" (by decide)

/-- C10: every value the router ever yields — streaming snapshots, error
emissions and the unknown-backend emission alike — sets both the code box
and the question box to the empty string. -/
theorem C10_inputs_cleared (code question : String) (history : List Msg)
    (name : String) (gb : StreamBehavior GptChunk) (cb : StreamBehavior ClaudeChunk)
    (lb : StreamBehavior LlamaChunk) :
    ∀ em ∈ (chat_router code question history name gb cb lb).emissions,
      em.codeOut = "" ∧ em.questionOut = "" := by
  intro em hm
  by_cases h1 : name = "GPT"
  · subst h1
    simp only [chat_router, if_pos rfl] at hm
    exact gpt_emissions_outputs code question history gb em hm
  by_cases h2 : name = "Claude"
  · subst h2
    simp only [chat_router, if_neg h1, if_pos rfl] at hm
    exact claude_emissions_outputs code question history cb em hm
  by_cases h3 : name = "Llama"
  · subst h3
    simp only [chat_router, if_neg h1, if_neg h2, if_pos rfl] at hm
    exact llama_emissions_outputs code question history lb em hm
  · simp only [chat_router, if_neg h1, if_neg h2, if_neg h3] at hm
    rcases List.mem_singleton.mp hm with rfl
    exact ⟨rfl, rfl⟩

/-- Witness for C10 at the unknown-backend emission. -/
theorem C10_inputs_cleared_witness :
    (⟨[⟨"assistant", "Unknown model selected."⟩], "", ""⟩ : Emission).codeOut = "" ∧
    (⟨[⟨"assistant", "Unknown model selected."⟩], "", ""⟩ : Emission).questionOut
      = "" :=
  C10_inputs_cleared "" "" [] "Z" ⟨[], none⟩ ⟨[], none⟩ ⟨[], none⟩
    ⟨[⟨"assistant", "Unknown model selected."⟩], "", ""⟩ (by decide)

end AITutor
